import Mathlib

/-!
Verification of the case lifecycle / audit-event engine of the
`frontend_test` repository (`src/models/cases.js`, `src/server.js`).

The JavaScript code is embedded shallowly:

* JavaScript values appearing in "field bag" snapshots are modelled by
  `JSVal` (distinguishing `undefined` from `null`, strings and numbers);
* database rows (`cases`, `case_events`) are records mirroring the
  migration schema; the store is a pair of row lists (`DB`);
* every engine operation runs a single transaction: its store queries are
  numbered and a failure schedule (`Nat → Option StoreError`) says which
  query (if any) the store fails; a failed query makes the operation
  return the store's error with the pre-transaction `DB` (the `ROLLBACK`
  of the `catch` block), mirroring the `try/catch/finally` structure of
  the source;
* the presentation-layer diff (`buildChangedRows`, `formatDMY`,
  `displayValue` in `src/server.js`) is embedded as pure functions,
  including the ECMAScript `Date` normalisation used by `formatDMY`.
-/

set_option maxRecDepth 4096

namespace Frontend

/-! ## JavaScript values -/

/-- A JavaScript value as it can appear in the loosely typed snapshot
"field bags": `undefined`, `null`, a string or an integer number (the only
numbers the engine stores are SQL `integer` columns). -/
inductive JSVal where
  | undefined
  | null
  | str (s : String)
  | num (n : Int)
  deriving DecidableEq, Repr

/-- JavaScript truthiness test (restricted to `JSVal`): `undefined`,
`null`, `0` and `""` are falsy. -/
def jsFalsy : JSVal → Bool
  | .undefined => true
  | .null => true
  | .num n => n == 0
  | .str s => s == ""

/-- The JavaScript nullish-coalescing operator `a ?? b`. -/
def nullish (a b : JSVal) : JSVal :=
  match a with
  | .undefined => b
  | .null => b
  | v => v

/-- Whether a value is one of the host language's ambient null variants
(`undefined` or `null`). -/
def jsAmbientNull : JSVal → Bool
  | .undefined => true
  | .null => true
  | _ => false

/-- JavaScript `String(v)` conversion for the values of `JSVal`. -/
def jsString : JSVal → String
  | .undefined => "undefined"
  | .null => "null"
  | .str s => s
  | .num n => toString n

/-- JavaScript `Number(v)` conversion, with `none` standing for `NaN`.
Strings are trimmed; the empty string converts to `0`; otherwise only
decimal integer literals (the only string numbers this system produces)
convert, everything else is `NaN`. -/
def jsNumber : JSVal → Option Int
  | .undefined => none
  | .null => some 0
  | .num n => some n
  | .str s =>
    let t := s.trim
    if t == "" then some 0 else t.toInt?

/-! ## Database rows

The `cases` and `case_events` tables as created by the migrations:
nullable columns are `Option`-typed, `NOT NULL` columns are plain.
Timestamps are abstract ticks (`Nat`); `NOW()` is passed into each
operation as an explicit `now` parameter. -/

/-- A row of the `cases` table. -/
structure CaseRow where
  id : String
  state : String
  title : String
  description : Option String
  created_by : String
  updated_by : String
  assigned_to : Option String
  person_name : Option String
  nhs_number : Option String
  dob_day : Option Int
  dob_month : Option Int
  dob_year : Option Int
  symptoms_day : Option Int
  symptoms_month : Option Int
  symptoms_year : Option Int
  postcode : Option String
  organisation : Option String
  created_at : Nat
  updated_at : Nat
  version : Int
  deriving DecidableEq, Repr

/-- The loosely typed JavaScript object a `node-pg` row (or any caller)
presents to `pickCaseSnapshot`: every property is a `JSVal`, so absent
properties (`undefined`) and SQL `NULL` (`null`) are both representable. -/
structure RawCase where
  title : JSVal
  description : JSVal
  person_name : JSVal
  nhs_number : JSVal
  dob_day : JSVal
  dob_month : JSVal
  dob_year : JSVal
  symptoms_day : JSVal
  symptoms_month : JSVal
  symptoms_year : JSVal
  postcode : JSVal
  organisation : JSVal
  updated_by : JSVal
  assigned_to : JSVal
  state : JSVal
  deriving DecidableEq, Repr

/-- How `node-pg` materialises a `cases` row as a JavaScript object:
SQL `NULL` becomes `null`, text becomes a string, integers become
numbers. -/
def CaseRow.toRaw (c : CaseRow) : RawCase where
  title := .str c.title
  description := match c.description with | some s => .str s | none => .null
  person_name := match c.person_name with | some s => .str s | none => .null
  nhs_number := match c.nhs_number with | some s => .str s | none => .null
  dob_day := match c.dob_day with | some n => .num n | none => .null
  dob_month := match c.dob_month with | some n => .num n | none => .null
  dob_year := match c.dob_year with | some n => .num n | none => .null
  symptoms_day := match c.symptoms_day with | some n => .num n | none => .null
  symptoms_month := match c.symptoms_month with | some n => .num n | none => .null
  symptoms_year := match c.symptoms_year with | some n => .num n | none => .null
  postcode := match c.postcode with | some s => .str s | none => .null
  organisation := match c.organisation with | some s => .str s | none => .null
  updated_by := .str c.updated_by
  assigned_to := match c.assigned_to with | some s => .str s | none => .null
  state := .str c.state

/-! ## Snapshots (`pickCaseSnapshot`, src/models/cases.js lines 79–98) -/

/-- The comparable field set extracted by `pickCaseSnapshot`. -/
structure Snapshot where
  title : JSVal
  description : JSVal
  person_name : JSVal
  nhs_number : JSVal
  dob_day : JSVal
  dob_month : JSVal
  dob_year : JSVal
  symptoms_day : JSVal
  symptoms_month : JSVal
  symptoms_year : JSVal
  postcode : JSVal
  organisation : JSVal
  updated_by : JSVal
  assigned_to : JSVal
  state : JSVal
  deriving DecidableEq, Repr

/-- `pickCaseSnapshot(c)` from src/models/cases.js: returns `null` for a
falsy argument, otherwise the fixed field set with each field passed
through `?? null` (so `undefined` is normalised to `null`). -/
def pickCaseSnapshot : Option RawCase → Option Snapshot
  | none => none
  | some c => some {
      title := nullish c.title .null
      description := nullish c.description .null
      person_name := nullish c.person_name .null
      nhs_number := nullish c.nhs_number .null
      dob_day := nullish c.dob_day .null
      dob_month := nullish c.dob_month .null
      dob_year := nullish c.dob_year .null
      symptoms_day := nullish c.symptoms_day .null
      symptoms_month := nullish c.symptoms_month .null
      symptoms_year := nullish c.symptoms_year .null
      postcode := nullish c.postcode .null
      organisation := nullish c.organisation .null
      updated_by := nullish c.updated_by .null
      assigned_to := nullish c.assigned_to .null
      state := nullish c.state .null }

/-- Snapshot of a `cases` row as the engine computes it
(`pickCaseSnapshot` applied to the row object). -/
def snapOf (c : CaseRow) : Option Snapshot :=
  pickCaseSnapshot (some c.toRaw)

/-! ## Events and the store -/

/-- The `event_data` JSONB payload `{ before, after }` written by the
field-group updates (each component is the result of
`pickCaseSnapshot`, hence possibly `null`). -/
structure EventData where
  before : Option Snapshot
  after : Option Snapshot
  deriving DecidableEq, Repr

/-- A row of the `case_events` table. -/
structure EventRow where
  id : Nat
  case_id : String
  event_type : String
  from_state : Option String
  to_state : Option String
  actor_id : String
  comment : Option String
  occurred_at : Nat
  event_data : Option EventData
  deriving DecidableEq, Repr

/-- The relational store: the `cases` table and the `case_events`
table (in insertion order). -/
structure DB where
  cases : List CaseRow
  events : List EventRow
  deriving DecidableEq, Repr

/-- An error raised by the store (connection loss, constraint violation,
deadlock, …); the payload keeps errors distinguishable so "re-raised
unmodified" is observable. -/
structure StoreError where
  msg : String
  deriving DecidableEq, Repr

/-- A failure schedule: for each store-query index within one engine
operation, whether the store fails that query (and with which error).
Query indices within each operation: `0` = the initial `SELECT` (or the
case `INSERT` for `createCase`), `1` = the `UPDATE` (or the event
`INSERT` for `createCase`), `2` = the event `INSERT` (or `COMMIT` for
`createCase`), `3` = `COMMIT`. -/
def FailSchedule : Type := Nat → Option StoreError

/-- The schedule under which the store never fails. -/
def noFail : FailSchedule := fun _ => none

/-- The schedule under which exactly the `k`-th query fails with `e`. -/
def failOnly (k : Nat) (e : StoreError) : FailSchedule :=
  fun n => if n == k then some e else none

/-- The next `bigserial` id for `case_events`. -/
def nextEventId (events : List EventRow) : Nat :=
  (events.map (·.id)).foldr max 0 + 1

/-- `insertEvent(client, …)` (src/models/cases.js lines 100–108): inserts
one event row with `from_state` and `to_state` both set to the single
`state` argument (`VALUES ($1, $2, $3, $3, $4, $5, $6)`), returning the
extended table and the new row's id. -/
def insertEvent (events : List EventRow) (caseId eventType state actorId : String)
    (comment : Option String) (eventData : Option EventData) (now : Nat) :
    List EventRow × Nat :=
  let eid := nextEventId events
  (events ++ [{ id := eid, case_id := caseId, event_type := eventType,
                from_state := some state, to_state := some state,
                actor_id := actorId, comment := comment,
                occurred_at := now, event_data := eventData }], eid)

/-- The result of an engine operation: the visible store after the
transaction (committed or rolled back), and either the operation's
JavaScript return value or the re-raised store error. -/
def OpResult (α : Type) : Type := DB × Except StoreError α

/-! ## Field-group updates

Each follows the source shape: `BEGIN`; `SELECT * FROM cases WHERE id`
(query 0); if no row, `ROLLBACK` and return `null`; `UPDATE … RETURNING …`
(query 1); `insertEvent` (query 2); `COMMIT` (query 3); any store failure
is caught, the transaction rolled back, and the error re-thrown. -/

/-- The row produced by `updateCaseDetails`'s `UPDATE`: sets `title`,
`description` (`description || null` — the empty string becomes `NULL`),
`updated_by` and `updated_at = NOW()`. -/
def applyDetails (c : CaseRow) (title description actorId : String) (now : Nat) : CaseRow :=
  { c with title := title,
           description := if description == "" then none else some description,
           updated_by := actorId, updated_at := now }

/-- `updateCaseDetails({id, title, description, actorId})`
(src/models/cases.js lines 110–158). -/
def updateCaseDetails (db : DB) (failAt : FailSchedule) (now : Nat)
    (id title description actorId : String) : OpResult (Option (CaseRow × Nat)) :=
  match failAt 0 with
  | some e => (db, .error e)
  | none =>
    match db.cases.find? (fun c => c.id == id) with
    | none => (db, .ok none)
    | some beforeRow =>
      match failAt 1 with
      | some e => (db, .error e)
      | none =>
        let updated := applyDetails beforeRow title description actorId now
        let cases' := db.cases.map (fun c =>
          if c.id == id then applyDetails c title description actorId now else c)
        match failAt 2 with
        | some e => (db, .error e)
        | none =>
          let (events', eventId) := insertEvent db.events id "EDIT_DETAILS"
            updated.state actorId none
            (some { before := snapOf beforeRow, after := snapOf updated }) now
          match failAt 3 with
          | some e => (db, .error e)
          | none => ({ cases := cases', events := events' }, .ok (some (updated, eventId)))

/-- The row produced by `updatePersonDetails`'s `UPDATE`: each argument is
passed through `|| null`, so `0` date parts and empty strings become
`NULL`. -/
def applyPerson (c : CaseRow) (personName nhsNumber : String)
    (dobDay dobMonth dobYear : Option Int) (actorId : String) (now : Nat) : CaseRow :=
  { c with person_name := if personName == "" then none else some personName,
           nhs_number := if nhsNumber == "" then none else some nhsNumber,
           dob_day := zeroToNull dobDay,
           dob_month := zeroToNull dobMonth,
           dob_year := zeroToNull dobYear,
           updated_by := actorId, updated_at := now }
where
  /-- JavaScript `v || null` on a number-or-null value. -/
  zeroToNull : Option Int → Option Int
    | some n => if n == 0 then none else some n
    | none => none

/-- `updatePersonDetails({id, personName, nhsNumber, dobDay, dobMonth,
dobYear, actorId})` (src/models/cases.js lines 160–219). -/
def updatePersonDetails (db : DB) (failAt : FailSchedule) (now : Nat)
    (id personName nhsNumber : String) (dobDay dobMonth dobYear : Option Int)
    (actorId : String) : OpResult (Option (CaseRow × Nat)) :=
  match failAt 0 with
  | some e => (db, .error e)
  | none =>
    match db.cases.find? (fun c => c.id == id) with
    | none => (db, .ok none)
    | some beforeRow =>
      match failAt 1 with
      | some e => (db, .error e)
      | none =>
        let updated := applyPerson beforeRow personName nhsNumber dobDay dobMonth dobYear actorId now
        let cases' := db.cases.map (fun c =>
          if c.id == id then applyPerson c personName nhsNumber dobDay dobMonth dobYear actorId now else c)
        match failAt 2 with
        | some e => (db, .error e)
        | none =>
          let (events', eventId) := insertEvent db.events id "EDIT_PERSON"
            updated.state actorId none
            (some { before := snapOf beforeRow, after := snapOf updated }) now
          match failAt 3 with
          | some e => (db, .error e)
          | none => ({ cases := cases', events := events' }, .ok (some (updated, eventId)))

/-- The row produced by `updateClinicalDetails`'s `UPDATE`. -/
def applyClinical (c : CaseRow) (symptomsDay symptomsMonth symptomsYear : Option Int)
    (actorId : String) (now : Nat) : CaseRow :=
  { c with symptoms_day := zeroToNull symptomsDay,
           symptoms_month := zeroToNull symptomsMonth,
           symptoms_year := zeroToNull symptomsYear,
           updated_by := actorId, updated_at := now }
where
  /-- JavaScript `v || null` on a number-or-null value. -/
  zeroToNull : Option Int → Option Int
    | some n => if n == 0 then none else some n
    | none => none

/-- `updateClinicalDetails({id, symptomsDay, symptomsMonth, symptomsYear,
actorId})` (src/models/cases.js lines 221–270). -/
def updateClinicalDetails (db : DB) (failAt : FailSchedule) (now : Nat)
    (id : String) (symptomsDay symptomsMonth symptomsYear : Option Int)
    (actorId : String) : OpResult (Option (CaseRow × Nat)) :=
  match failAt 0 with
  | some e => (db, .error e)
  | none =>
    match db.cases.find? (fun c => c.id == id) with
    | none => (db, .ok none)
    | some beforeRow =>
      match failAt 1 with
      | some e => (db, .error e)
      | none =>
        let updated := applyClinical beforeRow symptomsDay symptomsMonth symptomsYear actorId now
        let cases' := db.cases.map (fun c =>
          if c.id == id then applyClinical c symptomsDay symptomsMonth symptomsYear actorId now else c)
        match failAt 2 with
        | some e => (db, .error e)
        | none =>
          let (events', eventId) := insertEvent db.events id "EDIT_CLINICAL"
            updated.state actorId none
            (some { before := snapOf beforeRow, after := snapOf updated }) now
          match failAt 3 with
          | some e => (db, .error e)
          | none => ({ cases := cases', events := events' }, .ok (some (updated, eventId)))

/-- The row produced by `updateLocationDetails`'s `UPDATE`. -/
def applyLocation (c : CaseRow) (postcode organisation actorId : String) (now : Nat) : CaseRow :=
  { c with postcode := if postcode == "" then none else some postcode,
           organisation := if organisation == "" then none else some organisation,
           updated_by := actorId, updated_at := now }

/-- `updateLocationDetails({id, postcode, organisation, actorId})`
(src/models/cases.js lines 272–320). -/
def updateLocationDetails (db : DB) (failAt : FailSchedule) (now : Nat)
    (id postcode organisation actorId : String) : OpResult (Option (CaseRow × Nat)) :=
  match failAt 0 with
  | some e => (db, .error e)
  | none =>
    match db.cases.find? (fun c => c.id == id) with
    | none => (db, .ok none)
    | some beforeRow =>
      match failAt 1 with
      | some e => (db, .error e)
      | none =>
        let updated := applyLocation beforeRow postcode organisation actorId now
        let cases' := db.cases.map (fun c =>
          if c.id == id then applyLocation c postcode organisation actorId now else c)
        match failAt 2 with
        | some e => (db, .error e)
        | none =>
          let (events', eventId) := insertEvent db.events id "EDIT_LOCATION"
            updated.state actorId none
            (some { before := snapOf beforeRow, after := snapOf updated }) now
          match failAt 3 with
          | some e => (db, .error e)
          | none => ({ cases := cases', events := events' }, .ok (some (updated, eventId)))

/-! ## Workflow transitions and case creation -/

/-- The projection `RETURNING id, state, title, created_at, updated_at`
returned by `transitionCase`. -/
structure CaseSummary where
  id : String
  state : String
  title : String
  created_at : Nat
  updated_at : Nat
  deriving DecidableEq, Repr

def CaseRow.summary (c : CaseRow) : CaseSummary :=
  { id := c.id, state := c.state, title := c.title,
    created_at := c.created_at, updated_at := c.updated_at }

/-- The target-state lookup of `transitionCase` (src/models/cases.js
lines 336–339): three consecutive `if` statements over the event type,
defaulting to the current state. -/
def resolveToState (eventType fromState : String) : String :=
  let t := fromState
  let t := if eventType == "SUBMIT_FOR_REVIEW" then "IN_REVIEW" else t
  let t := if eventType == "RETURN" then "RETURNED" else t
  let t := if eventType == "APPROVE" then "APPROVED" else t
  t

/-- `transitionCase({id, eventType, comment, actorId})`
(src/models/cases.js lines 322–365): `SELECT id, state` (query 0); if no
row, `ROLLBACK` and return `null`; compute `toState`; `UPDATE` the row's
`state`, `updated_by`, `updated_at` (query 1); insert one event with
distinct `from_state`/`to_state` and the comment (query 2); `COMMIT`
(query 3). -/
def transitionCase (db : DB) (failAt : FailSchedule) (now : Nat)
    (id eventType : String) (comment : Option String) (actorId : String) :
    OpResult (Option CaseSummary) :=
  match failAt 0 with
  | some e => (db, .error e)
  | none =>
    match db.cases.find? (fun c => c.id == id) with
    | none => (db, .ok none)
    | some c =>
      let fromState := c.state
      let toState := resolveToState eventType fromState
      match failAt 1 with
      | some e => (db, .error e)
      | none =>
        let updated := { c with state := toState, updated_by := actorId, updated_at := now }
        let cases' := db.cases.map (fun r =>
          if r.id == id then { r with state := toState, updated_by := actorId, updated_at := now } else r)
        match failAt 2 with
        | some e => (db, .error e)
        | none =>
          let ev : EventRow :=
            { id := nextEventId db.events, case_id := id, event_type := eventType,
              from_state := some fromState, to_state := some toState,
              actor_id := actorId, comment := comment,
              occurred_at := now, event_data := none }
          match failAt 3 with
          | some e => (db, .error e)
          | none =>
            ({ cases := cases', events := db.events ++ [ev] }, .ok (some updated.summary))

/-- `createCase({title, description, createdBy})` (src/models/cases.js
lines 42–77): inserts a case row (query 0) — `state` takes the schema
default `'DRAFT'`, `version` the default `1`, `created_by` and
`updated_by` the given actor, `description || null` — then one `CREATE`
event with `from_state = NULL`, `to_state =` the new row's state
(query 1), then `COMMIT` (query 2). The generated `uuid` is passed in as
`newId`. -/
def createCase (db : DB) (failAt : FailSchedule) (now : Nat)
    (newId title description createdBy : String) : OpResult CaseRow :=
  match failAt 0 with
  | some e => (db, .error e)
  | none =>
    let c : CaseRow :=
      { id := newId, state := "DRAFT", title := title,
        description := if description == "" then none else some description,
        created_by := createdBy, updated_by := createdBy, assigned_to := none,
        person_name := none, nhs_number := none,
        dob_day := none, dob_month := none, dob_year := none,
        symptoms_day := none, symptoms_month := none, symptoms_year := none,
        postcode := none, organisation := none,
        created_at := now, updated_at := now, version := 1 }
    match failAt 1 with
    | some e => (db, .error e)
    | none =>
      let ev : EventRow :=
        { id := nextEventId db.events, case_id := newId, event_type := "CREATE",
          from_state := none, to_state := some c.state,
          actor_id := createdBy, comment := none,
          occurred_at := now, event_data := none }
      match failAt 2 with
      | some e => (db, .error e)
      | none =>
        ({ cases := db.cases ++ [c], events := db.events ++ [ev] }, .ok c)

/-! ## Date formatting (`formatDMY`, src/server.js lines 86–91)

`formatDMY` builds `new Date(Number(year), Number(month) - 1, Number(day))`
and renders it with `toLocaleDateString("en-GB", { day: "numeric",
month: "long", year: "numeric" })`.  The `Date` constructor normalises
out-of-range months and days (ECMAScript `MakeDay`) and maps two-digit
years to `1900 + year`; the proleptic Gregorian civil-date arithmetic is
embedded below (for non-positive normalised years the astronomical year
number is rendered). -/

/-- Day count since 1970-01-01 of the Gregorian date `(y, m, d)`
(`m` in `1..12`). -/
def daysFromCivil (y m d : Int) : Int :=
  let y := if m ≤ 2 then y - 1 else y
  let era := Int.fdiv y 400
  let yoe := y - era * 400
  let mp := if m > 2 then m - 3 else m + 9
  let doy := (153 * mp + 2) / 5 + d - 1
  let doe := yoe * 365 + yoe / 4 - yoe / 100 + doy
  era * 146097 + doe - 719468

/-- Gregorian date `(y, m, d)` of a day count since 1970-01-01. -/
def civilFromDays (z0 : Int) : Int × Int × Int :=
  let z := z0 + 719468
  let era := Int.fdiv z 146097
  let doe := z - era * 146097
  let yoe := (doe - doe / 1460 + doe / 36524 - doe / 146096) / 365
  let y := yoe + era * 400
  let doy := doe - (365 * yoe + yoe / 4 - yoe / 100)
  let mp := (5 * doy + 2) / 153
  let d := doy - (153 * mp + 2) / 5 + 1
  let m := if mp < 10 then mp + 3 else mp - 9
  (y + (if m ≤ 2 then 1 else 0), m, d)

/-- The `en-GB` long month names (months numbered `1..12`). -/
def monthLong : Int → String
  | 1 => "January"
  | 2 => "February"
  | 3 => "March"
  | 4 => "April"
  | 5 => "May"
  | 6 => "June"
  | 7 => "July"
  | 8 => "August"
  | 9 => "September"
  | 10 => "October"
  | 11 => "November"
  | 12 => "December"
  | _ => ""

/-- `new Date(year, monthIndex, day).toLocaleDateString("en-GB",
{ day: "numeric", month: "long", year: "numeric" })`, or `""` when the
time value is out of the ECMAScript range (`Number.isNaN(d.getTime())`
in the source). -/
def formatJSDate (year monthIndex day : Int) : String :=
  let yr := if 0 ≤ year ∧ year ≤ 99 then year + 1900 else year
  let ym := yr + Int.fdiv monthIndex 12
  let mn := Int.emod monthIndex 12
  let dayNum := daysFromCivil ym (mn + 1) 1 + (day - 1)
  if dayNum < -100000000 ∨ 100000000 < dayNum then ""
  else
    let (y, m, d) := civilFromDays dayNum
    let ms := monthLong m
    s!"{d} {ms} {y}"

/-- `formatDMY(day, month, year)` (src/server.js lines 86–91): `""` when
any part is falsy or the date is invalid, otherwise the formatted
date. -/
def formatDMY (day month year : JSVal) : String :=
  if jsFalsy day || jsFalsy month || jsFalsy year then ""
  else
    match jsNumber year, jsNumber month, jsNumber day with
    | some y, some m, some d => formatJSDate y (m - 1) d
    | _, _, _ => ""

/-! ## The change diff (`buildChangedRows`, src/server.js lines 137–205) -/

/-- Property lookup `snapshot[key]` on a snapshot object; an unknown key
reads as `undefined`. -/
def Snapshot.getField (s : Snapshot) : String → JSVal
  | "title" => s.title
  | "description" => s.description
  | "person_name" => s.person_name
  | "nhs_number" => s.nhs_number
  | "dob_day" => s.dob_day
  | "dob_month" => s.dob_month
  | "dob_year" => s.dob_year
  | "symptoms_day" => s.symptoms_day
  | "symptoms_month" => s.symptoms_month
  | "symptoms_year" => s.symptoms_year
  | "postcode" => s.postcode
  | "organisation" => s.organisation
  | "updated_by" => s.updated_by
  | "assigned_to" => s.assigned_to
  | "state" => s.state
  | _ => .undefined

/-- `labelMap[k] || k` with the `labelMap` of `buildChangedRows`. -/
def labelText : String → String
  | "person_name" => "Full name"
  | "nhs_number" => "NHS number"
  | "dob_day" => "Date of birth"
  | "symptoms_day" => "Symptoms start date"
  | "postcode" => "Postcode"
  | "organisation" => "Organisation"
  | "title" => "Title"
  | "description" => "Description"
  | k => k

/-- `displayValue(key, snapshot)` (src/server.js lines 149–159): the two
date groups render as the formatted triple or `"Not provided"`; other
keys render their value, with `null`/`undefined`/`""` as
`"Not provided"`. -/
def displayValue (key : String) (s : Snapshot) : String :=
  if key == "dob_day" then
    let f := formatDMY s.dob_day s.dob_month s.dob_year
    if f == "" then "Not provided" else f
  else if key == "symptoms_day" then
    let f := formatDMY s.symptoms_day s.symptoms_month s.symptoms_year
    if f == "" then "Not provided" else f
  else
    let v := s.getField key
    if v == .null || v == .undefined || v == .str "" then "Not provided" else jsString v

/-- One GOV.UK summary-list row `{ key: { text }, value: { html } }`. -/
structure GovRow where
  key : String
  value : String
  deriving DecidableEq, Repr

/-- The `value.html` markup of a change row. -/
def changeHtml (fromV toV : String) : String :=
  "<span class=\"govuk-body\">From: " ++ fromV ++
    "</span><br><span class=\"govuk-body\">To: " ++ toV ++ "</span>"

/-- The fixed ordered list of simple keys compared by
`buildChangedRows`. -/
def simpleKeys : List String :=
  ["person_name", "nhs_number", "postcode", "organisation", "title", "description"]

/-- One iteration of the simple-key loop: compare
`String(before[k] ?? null ?? "")` with the same for `after` and emit a
row when they differ. -/
def simpleRow (before after : Snapshot) (k : String) : Option GovRow :=
  let b := nullish (before.getField k) .null
  let a := nullish (after.getField k) .null
  if jsString (nullish b (.str "")) ≠ jsString (nullish a (.str "")) then
    some { key := labelText k,
           value := changeHtml (displayValue k before) (displayValue k after) }
  else none

/-- The group comparison for the date-of-birth triple
(`!==` on each part after `?? null`). -/
def dobChanged (before after : Snapshot) : Bool :=
  nullish before.dob_day .null ≠ nullish after.dob_day .null ||
  nullish before.dob_month .null ≠ nullish after.dob_month .null ||
  nullish before.dob_year .null ≠ nullish after.dob_year .null

/-- The group comparison for the symptoms-date triple. -/
def symptomsChanged (before after : Snapshot) : Bool :=
  nullish before.symptoms_day .null ≠ nullish after.symptoms_day .null ||
  nullish before.symptoms_month .null ≠ nullish after.symptoms_month .null ||
  nullish before.symptoms_year .null ≠ nullish after.symptoms_year .null

/-- `buildChangedRows(before, after)` (src/server.js lines 137–205):
the simple keys in declared order, then at most one "Date of birth" row,
then at most one "Symptoms start date" row. -/
def buildChangedRows (before after : Snapshot) : List GovRow :=
  simpleKeys.filterMap (simpleRow before after) ++
  (if dobChanged before after then
      [{ key := "Date of birth",
         value := changeHtml (displayValue "dob_day" before) (displayValue "dob_day" after) }]
    else []) ++
  (if symptomsChanged before after then
      [{ key := "Symptoms start date",
         value := changeHtml (displayValue "symptoms_day" before) (displayValue "symptoms_day" after) }]
    else [])

/-! ## The mutating HTTP routes (src/server.js)

Each `POST` handler is embedded as a function from the store and its
request-body fields (absent form fields are `none`) to the new store and
an HTTP-level outcome.  `getCaseById` reads outside any transaction and
is modelled as a pure lookup. -/

/-- The observable outcome of a route handler. -/
inductive RouteOutcome where
  | redirect (dest : String)
  | notFound
  | badRequest
  | storeError (e : StoreError)
  deriving DecidableEq, Repr

/-- `(req.body.x || "").trim()` on a form field. -/
def bodyStr (v : Option String) : String :=
  (match v with | none => "" | some s => s).trim

/-- `Number(req.body.x || 0) || null` on a date-part form field. -/
def bodyNum (v : Option String) : Option Int :=
  let x : JSVal := match v with
    | none => .num 0
    | some s => if s == "" then .num 0 else .str s
  match jsNumber x with
  | none => none
  | some n => if n == 0 then none else some n

/-- `getCaseById(id)` (src/models/cases.js lines 14–29) as seen by the
route handlers. -/
def getCaseById (db : DB) (id : String) : Option CaseRow :=
  db.cases.find? (fun c => c.id == id)

/-- `POST /cases/new` (src/server.js lines 221–239). -/
def routeNewCase (db : DB) (failAt : FailSchedule) (now : Nat)
    (newId : String) (title description : Option String) : DB × RouteOutcome :=
  let t := bodyStr title
  let d := bodyStr description
  if t == "" then (db, .badRequest)
  else
    match createCase db failAt now newId t d "local-user" with
    | (db', .ok c) => (db', .redirect ("/cases/" ++ c.id))
    | (db', .error e) => (db', .storeError e)

/-- `POST /cases/:id/person` (src/server.js lines 335–382). -/
def routePerson (db : DB) (failAt : FailSchedule) (now : Nat) (id : String)
    (personName nhsNumber dobDay dobMonth dobYear : Option String) : DB × RouteOutcome :=
  let pn := bodyStr personName
  let nhs := bodyStr nhsNumber
  let dd := bodyNum dobDay
  let dm := bodyNum dobMonth
  let dy := bodyNum dobYear
  let hasErrors := pn == "" || nhs == "" || dd == none || dm == none || dy == none
  match getCaseById db id with
  | none => (db, .notFound)
  | some _ =>
    if hasErrors then (db, .badRequest)
    else
      match updatePersonDetails db failAt now id pn nhs dd dm dy "local-user" with
      | (db', .ok none) => (db', .notFound)
      | (db', .ok (some (_, eventId))) =>
        (db', .redirect ("/cases/" ++ id ++ "/changes-saved/" ++ toString eventId))
      | (db', .error e) => (db', .storeError e)

/-- `POST /cases/:id/clinical` (src/server.js lines 395–430). -/
def routeClinical (db : DB) (failAt : FailSchedule) (now : Nat) (id : String)
    (symptomsDay symptomsMonth symptomsYear : Option String) : DB × RouteOutcome :=
  let sd := bodyNum symptomsDay
  let sm := bodyNum symptomsMonth
  let sy := bodyNum symptomsYear
  let hasErrors := sd == none || sm == none || sy == none
  match getCaseById db id with
  | none => (db, .notFound)
  | some _ =>
    if hasErrors then (db, .badRequest)
    else
      match updateClinicalDetails db failAt now id sd sm sy "local-user" with
      | (db', .ok none) => (db', .notFound)
      | (db', .ok (some (_, eventId))) =>
        (db', .redirect ("/cases/" ++ id ++ "/changes-saved/" ++ toString eventId))
      | (db', .error e) => (db', .storeError e)

/-- `POST /cases/:id/location` (src/server.js lines 443–474). -/
def routeLocation (db : DB) (failAt : FailSchedule) (now : Nat) (id : String)
    (postcode organisation : Option String) : DB × RouteOutcome :=
  let pc := bodyStr postcode
  let org := bodyStr organisation
  let hasErrors := pc == ""
  match getCaseById db id with
  | none => (db, .notFound)
  | some _ =>
    if hasErrors then (db, .badRequest)
    else
      match updateLocationDetails db failAt now id pc org "local-user" with
      | (db', .ok none) => (db', .notFound)
      | (db', .ok (some (_, eventId))) =>
        (db', .redirect ("/cases/" ++ id ++ "/changes-saved/" ++ toString eventId))
      | (db', .error e) => (db', .storeError e)

/-- `POST /cases/:id/submit` (src/server.js lines 520–532): transitions
with event type `"SUBMIT_FOR_REVIEW"`. -/
def routeSubmit (db : DB) (failAt : FailSchedule) (now : Nat) (id : String) :
    DB × RouteOutcome :=
  match transitionCase db failAt now id "SUBMIT_FOR_REVIEW" none "local-user" with
  | (db', .ok none) => (db', .notFound)
  | (db', .ok (some _)) => (db', .redirect ("/cases/" ++ id ++ "/submitted"))
  | (db', .error e) => (db', .storeError e)

/-- `POST /cases/:id/approve` (src/server.js lines 557–569): transitions
with event type `"REVIEW_APPROVE"`. -/
def routeApprove (db : DB) (failAt : FailSchedule) (now : Nat) (id : String) :
    DB × RouteOutcome :=
  match transitionCase db failAt now id "REVIEW_APPROVE" none "local-user" with
  | (db', .ok none) => (db', .notFound)
  | (db', .ok (some _)) => (db', .redirect ("/cases/" ++ id ++ "/approved"))
  | (db', .error e) => (db', .storeError e)

/-- `POST /cases/:id/return` (src/server.js lines 594–620): requires a
non-empty trimmed comment, then transitions with event type
`"REVIEW_RETURN"`. -/
def routeReturnCase (db : DB) (failAt : FailSchedule) (now : Nat) (id : String)
    (comment : Option String) : DB × RouteOutcome :=
  let cm := bodyStr comment
  match getCaseById db id with
  | none => (db, .notFound)
  | some _ =>
    if cm == "" then (db, .badRequest)
    else
      match transitionCase db failAt now id "REVIEW_RETURN" (some cm) "local-user" with
      | (db', .ok none) => (db', .notFound)
      | (db', .ok (some _)) => (db', .redirect ("/cases/" ++ id ++ "/returned"))
      | (db', .error e) => (db', .storeError e)

/-- One invocation of a mutating route of the server, with the inputs the
environment supplies for it (request-body fields, the generated uuid,
the clock tick and the store's failure behaviour for the handled
request). -/
inductive RouteCall where
  | newCase (newId : String) (title description : Option String)
  | person (id : String) (personName nhsNumber dobDay dobMonth dobYear : Option String)
  | clinical (id : String) (symptomsDay symptomsMonth symptomsYear : Option String)
  | location (id : String) (postcode organisation : Option String)
  | submit (id : String)
  | approve (id : String)
  | returnCase (id : String) (comment : Option String)

/-- Dispatch one route invocation against the store. -/
def runRoute (db : DB) (failAt : FailSchedule) (now : Nat) : RouteCall → DB × RouteOutcome
  | .newCase newId title description => routeNewCase db failAt now newId title description
  | .person id pn nhs dd dm dy => routePerson db failAt now id pn nhs dd dm dy
  | .clinical id sd sm sy => routeClinical db failAt now id sd sm sy
  | .location id pc org => routeLocation db failAt now id pc org
  | .submit id => routeSubmit db failAt now id
  | .approve id => routeApprove db failAt now id
  | .returnCase id comment => routeReturnCase db failAt now id comment

/-- Run a whole sequence of route invocations, each with its own clock
tick, fresh uuid and store behaviour. -/
def runRoutes (db : DB) : List (RouteCall × FailSchedule × Nat) → DB
  | [] => db
  | (a, failAt, now) :: rest => runRoutes (runRoute db failAt now a).1 rest

/-! ## The spec's legal-transition set -/

/-- Modelled from the spec (§4.2), for comparison with the code: the
legal workflow transitions are `DRAFT → IN_REVIEW`,
`IN_REVIEW → APPROVED`, `IN_REVIEW → RETURNED` and
`RETURNED → IN_REVIEW`; `DRAFT` is initial, `APPROVED` terminal, and no
other transition is legal. -/
def specLegalTransition (fromState toState : String) : Bool :=
  (fromState == "DRAFT" && toState == "IN_REVIEW") ||
  (fromState == "IN_REVIEW" && toState == "APPROVED") ||
  (fromState == "IN_REVIEW" && toState == "RETURNED") ||
  (fromState == "RETURNED" && toState == "IN_REVIEW")

/-! ## Sample data for concrete witnesses -/

/-- A freshly created case in state `DRAFT`. -/
def row0 : CaseRow :=
  { id := "c1", state := "DRAFT", title := "Flu cluster", description := none,
    created_by := "local-user", updated_by := "local-user", assigned_to := none,
    person_name := none, nhs_number := none,
    dob_day := none, dob_month := none, dob_year := none,
    symptoms_day := none, symptoms_month := none, symptoms_year := none,
    postcode := none, organisation := none,
    created_at := 1, updated_at := 1, version := 1 }

/-- A store holding exactly `row0` and no events. -/
def db0 : DB := { cases := [row0], events := [] }

/-- The empty store. -/
def dbEmpty : DB := { cases := [], events := [] }

/-- A raw case object whose `person_name` property is missing
(`undefined`). -/
def rawMissingPerson : RawCase :=
  { title := .str "Flu cluster", description := .null,
    person_name := .undefined, nhs_number := .null,
    dob_day := .null, dob_month := .null, dob_year := .null,
    symptoms_day := .null, symptoms_month := .null, symptoms_year := .null,
    postcode := .null, organisation := .null,
    updated_by := .str "local-user", assigned_to := .null, state := .str "DRAFT" }

/-- A snapshot with every field `null` (date-of-birth triple absent). -/
def snapNull : Snapshot :=
  { title := .null, description := .null, person_name := .null, nhs_number := .null,
    dob_day := .null, dob_month := .null, dob_year := .null,
    symptoms_day := .null, symptoms_month := .null, symptoms_year := .null,
    postcode := .null, organisation := .null,
    updated_by := .null, assigned_to := .null, state := .null }

/-- `snapNull` with the date of birth set to 15 March 1990. -/
def snapDob : Snapshot :=
  { snapNull with dob_day := .num 15, dob_month := .num 3, dob_year := .num 1990 }

/-! ## Helper lemmas -/

/-- `v ?? null` normalises the ambient null variants to `null` and keeps
every other value. -/
theorem nullish_null_eq (v : JSVal) :
    nullish v .null = if jsAmbientNull v then .null else v := by
  cases v <;> rfl

/-- An unrecognised event type resolves to "no change". -/
theorem resolveToState_other (eventType fromState : String)
    (h1 : eventType ≠ "SUBMIT_FOR_REVIEW") (h2 : eventType ≠ "RETURN")
    (h3 : eventType ≠ "APPROVE") : resolveToState eventType fromState = fromState := by
  simp [resolveToState, h1, h2, h3]

/-- A row emitted by the simple-key loop carries the label of its key. -/
theorem simpleRow_key (b a : Snapshot) (k : String) (r : GovRow)
    (h : simpleRow b a k = some r) : r.key = labelText k := by
  simp only [simpleRow] at h
  split at h
  · cases h
    rfl
  · exact absurd h (by simp)

/-- Every simple-key row is keyed by one of the six simple-field
labels. -/
theorem simpleRows_keys (b a : Snapshot) (r : GovRow)
    (h : r ∈ simpleKeys.filterMap (simpleRow b a)) :
    r.key ∈ (["Full name", "NHS number", "Postcode", "Organisation", "Title",
              "Description"] : List String) := by
  rcases List.mem_filterMap.mp h with ⟨k, hk, hfk⟩
  have hkey := simpleRow_key b a k r hfk
  simp only [simpleKeys, List.mem_cons, List.not_mem_nil, or_false] at hk
  rcases hk with rfl | rfl | rfl | rfl | rfl | rfl <;> simp [hkey, labelText]

/-- No simple-key row is keyed "Date of birth". -/
theorem simpleRows_no_dob (b a : Snapshot) :
    (simpleKeys.filterMap (simpleRow b a)).filter
      (fun r => r.key == "Date of birth") = [] := by
  rw [List.filter_eq_nil_iff]
  intro r hr
  have := simpleRows_keys b a r hr
  simp only [List.mem_cons, List.not_mem_nil, or_false] at this
  rcases this with h | h | h | h | h | h <;> simp [h]

/-- No simple-key row is keyed "Symptoms start date". -/
theorem simpleRows_no_symptoms (b a : Snapshot) :
    (simpleKeys.filterMap (simpleRow b a)).filter
      (fun r => r.key == "Symptoms start date") = [] := by
  rw [List.filter_eq_nil_iff]
  intro r hr
  have := simpleRows_keys b a r hr
  simp only [List.mem_cons, List.not_mem_nil, or_false] at this
  rcases this with h | h | h | h | h | h <;> simp [h]

/-! ## C10 — the snapshot function -/

/-- C10 counterexample: the claim says `pickCaseSnapshot` normalises
missing values "to an explicit absent marker that is not the host
language's ambient null variants"; in fact a missing (`undefined`)
`person_name` is normalised to JavaScript `null`, which is exactly one of
the host language's ambient null variants. -/
theorem c10_absent_marker_counterexample :
    (pickCaseSnapshot (some rawMissingPerson)).map (fun s => s.person_name) =
      some JSVal.null ∧
    jsAmbientNull JSVal.null = true :=
  ⟨rfl, rfl⟩

/-- C10 (amended): `pickCaseSnapshot` is pure and total with no failure
modes (a falsy argument yields `null`), extracts exactly the fixed field
set — title, description, person_name, nhs_number, the six date parts,
postcode, organisation, updated_by, assigned_to, state — and normalises
every missing value (`undefined`) to the host language's `null` (an
ambient null variant), keeping every non-nullish value unchanged. -/
theorem c10_snapshot_normalisation :
    pickCaseSnapshot none = none ∧
    ∀ c : RawCase, pickCaseSnapshot (some c) = some {
      title := if jsAmbientNull c.title then .null else c.title,
      description := if jsAmbientNull c.description then .null else c.description,
      person_name := if jsAmbientNull c.person_name then .null else c.person_name,
      nhs_number := if jsAmbientNull c.nhs_number then .null else c.nhs_number,
      dob_day := if jsAmbientNull c.dob_day then .null else c.dob_day,
      dob_month := if jsAmbientNull c.dob_month then .null else c.dob_month,
      dob_year := if jsAmbientNull c.dob_year then .null else c.dob_year,
      symptoms_day := if jsAmbientNull c.symptoms_day then .null else c.symptoms_day,
      symptoms_month := if jsAmbientNull c.symptoms_month then .null else c.symptoms_month,
      symptoms_year := if jsAmbientNull c.symptoms_year then .null else c.symptoms_year,
      postcode := if jsAmbientNull c.postcode then .null else c.postcode,
      organisation := if jsAmbientNull c.organisation then .null else c.organisation,
      updated_by := if jsAmbientNull c.updated_by then .null else c.updated_by,
      assigned_to := if jsAmbientNull c.assigned_to then .null else c.assigned_to,
      state := if jsAmbientNull c.state then .null else c.state } := by
  refine ⟨rfl, fun c => ?_⟩
  simp only [pickCaseSnapshot, nullish_null_eq]

/-! ## C9 — whole-triple date diffing -/

/-- C9: a change in any part of the date-of-birth triple yields exactly
one "Date of birth" row (never one row per part), an unchanged triple
yields none, and symmetrically for the symptoms triple; every emitted row
carries one of the eight group labels; the date groups display as the
fully formatted date, with "Not provided" when the triple is absent. -/
theorem c9_date_triples_diff (before after : Snapshot) :
    ((buildChangedRows before after).filter (fun r => r.key == "Date of birth") =
      if dobChanged before after then
        [{ key := "Date of birth",
           value := changeHtml (displayValue "dob_day" before)
                      (displayValue "dob_day" after) }]
      else []) ∧
    ((buildChangedRows before after).filter (fun r => r.key == "Symptoms start date") =
      if symptomsChanged before after then
        [{ key := "Symptoms start date",
           value := changeHtml (displayValue "symptoms_day" before)
                      (displayValue "symptoms_day" after) }]
      else []) ∧
    (∀ r ∈ buildChangedRows before after,
      r.key ∈ (["Full name", "NHS number", "Postcode", "Organisation", "Title",
                "Description", "Date of birth", "Symptoms start date"] : List String)) ∧
    (∀ s : Snapshot, displayValue "dob_day" s =
      if formatDMY s.dob_day s.dob_month s.dob_year == "" then "Not provided"
      else formatDMY s.dob_day s.dob_month s.dob_year) ∧
    (∀ s : Snapshot, s.dob_day = .null → s.dob_month = .null → s.dob_year = .null →
      displayValue "dob_day" s = "Not provided") ∧
    (∀ s : Snapshot, s.symptoms_day = .null → s.symptoms_month = .null →
      s.symptoms_year = .null → displayValue "symptoms_day" s = "Not provided") := by
  refine ⟨?_, ?_, ?_, ?_, ?_, ?_⟩
  · unfold buildChangedRows
    rw [List.filter_append, List.filter_append, simpleRows_no_dob]
    by_cases hd : dobChanged before after <;>
      by_cases hs : symptomsChanged before after <;>
        simp [hd, hs]
  · unfold buildChangedRows
    rw [List.filter_append, List.filter_append, simpleRows_no_symptoms]
    by_cases hd : dobChanged before after <;>
      by_cases hs : symptomsChanged before after <;>
        simp [hd, hs]
  · intro r hr
    unfold buildChangedRows at hr
    rcases List.mem_append.mp hr with hr' | hr'
    · rcases List.mem_append.mp hr' with hr'' | hr''
      · have := simpleRows_keys before after r hr''
        simp only [List.mem_cons, List.not_mem_nil, or_false] at this ⊢
        tauto
      · by_cases hd : dobChanged before after <;> simp [hd] at hr''
        simp [hr'']
    · by_cases hs : symptomsChanged before after <;> simp [hs] at hr'
      simp [hr']
  · intro s
    rfl
  · intro s h1 h2 h3
    simp [displayValue, formatDMY, jsFalsy, h1]
  · intro s h1 h2 h3
    simp [displayValue, formatDMY, jsFalsy, h1]

/-- C9 witness: changing only the date of birth between two concrete
snapshots yields exactly one "Date of birth" row, and the absent triple
displays as "Not provided". -/
theorem c9_witness :
    ((buildChangedRows snapNull snapDob).filter (fun r => r.key == "Date of birth") =
      [{ key := "Date of birth",
         value := changeHtml "Not provided" "15 March 1990" }]) ∧
    displayValue "dob_day" snapNull = "Not provided" := by
  constructor
  · have h := (c9_date_triples_diff snapNull snapDob).1
    rw [h]
    decide
  · exact (c9_date_triples_diff snapNull snapDob).2.2.2.2.1 snapNull rfl rfl rfl

/-! ## C1 — field-group updates write one event with before/after
snapshots -/

/-- C1: every successful field-group update on an existing case writes
exactly one event row, whose `event_data.before` is the snapshot of the
row read at the start of the transaction, whose `event_data.after` is
the snapshot of the updated row, whose `event_type` identifies the group
and whose `from_state = to_state =` the unchanged current workflow
state. -/
theorem c1_updates_write_one_event :
    (∀ (db : DB) (now : Nat) (id title description actorId : String) (row : CaseRow),
      db.cases.find? (fun c => c.id == id) = some row →
      updateCaseDetails db noFail now id title description actorId =
        ({ cases := db.cases.map (fun c =>
              if c.id == id then applyDetails c title description actorId now else c),
           events := db.events ++ [{
             id := nextEventId db.events, case_id := id, event_type := "EDIT_DETAILS",
             from_state := some row.state, to_state := some row.state,
             actor_id := actorId, comment := none, occurred_at := now,
             event_data := some {
               before := snapOf row,
               after := snapOf (applyDetails row title description actorId now) } }] },
         .ok (some (applyDetails row title description actorId now, nextEventId db.events)))
      ∧ (applyDetails row title description actorId now).state = row.state) ∧
    (∀ (db : DB) (now : Nat) (id personName nhsNumber : String)
        (dobDay dobMonth dobYear : Option Int) (actorId : String) (row : CaseRow),
      db.cases.find? (fun c => c.id == id) = some row →
      updatePersonDetails db noFail now id personName nhsNumber dobDay dobMonth dobYear actorId =
        ({ cases := db.cases.map (fun c =>
              if c.id == id then applyPerson c personName nhsNumber dobDay dobMonth dobYear actorId now else c),
           events := db.events ++ [{
             id := nextEventId db.events, case_id := id, event_type := "EDIT_PERSON",
             from_state := some row.state, to_state := some row.state,
             actor_id := actorId, comment := none, occurred_at := now,
             event_data := some {
               before := snapOf row,
               after := snapOf (applyPerson row personName nhsNumber dobDay dobMonth dobYear actorId now) } }] },
         .ok (some (applyPerson row personName nhsNumber dobDay dobMonth dobYear actorId now,
                    nextEventId db.events)))
      ∧ (applyPerson row personName nhsNumber dobDay dobMonth dobYear actorId now).state = row.state) ∧
    (∀ (db : DB) (now : Nat) (id : String) (symptomsDay symptomsMonth symptomsYear : Option Int)
        (actorId : String) (row : CaseRow),
      db.cases.find? (fun c => c.id == id) = some row →
      updateClinicalDetails db noFail now id symptomsDay symptomsMonth symptomsYear actorId =
        ({ cases := db.cases.map (fun c =>
              if c.id == id then applyClinical c symptomsDay symptomsMonth symptomsYear actorId now else c),
           events := db.events ++ [{
             id := nextEventId db.events, case_id := id, event_type := "EDIT_CLINICAL",
             from_state := some row.state, to_state := some row.state,
             actor_id := actorId, comment := none, occurred_at := now,
             event_data := some {
               before := snapOf row,
               after := snapOf (applyClinical row symptomsDay symptomsMonth symptomsYear actorId now) } }] },
         .ok (some (applyClinical row symptomsDay symptomsMonth symptomsYear actorId now,
                    nextEventId db.events)))
      ∧ (applyClinical row symptomsDay symptomsMonth symptomsYear actorId now).state = row.state) ∧
    (∀ (db : DB) (now : Nat) (id postcode organisation actorId : String) (row : CaseRow),
      db.cases.find? (fun c => c.id == id) = some row →
      updateLocationDetails db noFail now id postcode organisation actorId =
        ({ cases := db.cases.map (fun c =>
              if c.id == id then applyLocation c postcode organisation actorId now else c),
           events := db.events ++ [{
             id := nextEventId db.events, case_id := id, event_type := "EDIT_LOCATION",
             from_state := some row.state, to_state := some row.state,
             actor_id := actorId, comment := none, occurred_at := now,
             event_data := some {
               before := snapOf row,
               after := snapOf (applyLocation row postcode organisation actorId now) } }] },
         .ok (some (applyLocation row postcode organisation actorId now, nextEventId db.events)))
      ∧ (applyLocation row postcode organisation actorId now).state = row.state) := by
  refine ⟨?_, ?_, ?_, ?_⟩
  · intro db now id title description actorId row hfind
    refine ⟨?_, rfl⟩
    simp [updateCaseDetails, noFail, hfind, insertEvent, applyDetails]
  · intro db now id pn nhs dd dm dy actorId row hfind
    refine ⟨?_, rfl⟩
    simp [updatePersonDetails, noFail, hfind, insertEvent, applyPerson]
  · intro db now id sd sm sy actorId row hfind
    refine ⟨?_, rfl⟩
    simp [updateClinicalDetails, noFail, hfind, insertEvent, applyClinical]
  · intro db now id pc org actorId row hfind
    refine ⟨?_, rfl⟩
    simp [updateLocationDetails, noFail, hfind, insertEvent, applyLocation]

/-- C1 witness: a concrete details update on `db0` appends exactly one
`EDIT_DETAILS` event. -/
theorem c1_witness :
    (updateCaseDetails db0 noFail 2 "c1" "New title" "New description" "local-user").1.events.length = 1 := by
  have h := c1_updates_write_one_event.1 db0 2 "c1" "New title" "New description"
    "local-user" row0 (by rfl)
  rw [h.1]
  rfl

/-! ## C8 — frame conditions of the field-group updates -/

/-- C8: each field-group update changes only its own group's fields plus
`updated_by` and `updated_at`; every other column of the case row —
`id`, `state`, `created_by`, `created_at`, `assigned_to`, `version` and
the fields of the other three groups — keeps its previous value, and the
operation rewrites the store's case table exactly by that per-row
update. -/
theorem c8_updates_frame :
    (∀ (db : DB) (now : Nat) (id title description actorId : String) (row : CaseRow),
      db.cases.find? (fun c => c.id == id) = some row →
      (updateCaseDetails db noFail now id title description actorId).1.cases =
        db.cases.map (fun c =>
          if c.id == id then applyDetails c title description actorId now else c)) ∧
    (∀ (c : CaseRow) (title description actorId : String) (now : Nat),
      let u := applyDetails c title description actorId now
      u.id = c.id ∧ u.state = c.state ∧ u.created_by = c.created_by ∧
      u.created_at = c.created_at ∧ u.assigned_to = c.assigned_to ∧
      u.person_name = c.person_name ∧ u.nhs_number = c.nhs_number ∧
      u.dob_day = c.dob_day ∧ u.dob_month = c.dob_month ∧ u.dob_year = c.dob_year ∧
      u.symptoms_day = c.symptoms_day ∧ u.symptoms_month = c.symptoms_month ∧
      u.symptoms_year = c.symptoms_year ∧ u.postcode = c.postcode ∧
      u.organisation = c.organisation ∧ u.version = c.version ∧
      u.updated_by = actorId ∧ u.updated_at = now) ∧
    (∀ (db : DB) (now : Nat) (id pn nhs : String) (dd dm dy : Option Int)
        (actorId : String) (row : CaseRow),
      db.cases.find? (fun c => c.id == id) = some row →
      (updatePersonDetails db noFail now id pn nhs dd dm dy actorId).1.cases =
        db.cases.map (fun c =>
          if c.id == id then applyPerson c pn nhs dd dm dy actorId now else c)) ∧
    (∀ (c : CaseRow) (pn nhs : String) (dd dm dy : Option Int) (actorId : String) (now : Nat),
      let u := applyPerson c pn nhs dd dm dy actorId now
      u.id = c.id ∧ u.state = c.state ∧ u.title = c.title ∧
      u.description = c.description ∧ u.created_by = c.created_by ∧
      u.created_at = c.created_at ∧ u.assigned_to = c.assigned_to ∧
      u.symptoms_day = c.symptoms_day ∧ u.symptoms_month = c.symptoms_month ∧
      u.symptoms_year = c.symptoms_year ∧ u.postcode = c.postcode ∧
      u.organisation = c.organisation ∧ u.version = c.version ∧
      u.updated_by = actorId ∧ u.updated_at = now) ∧
    (∀ (db : DB) (now : Nat) (id : String) (sd sm sy : Option Int)
        (actorId : String) (row : CaseRow),
      db.cases.find? (fun c => c.id == id) = some row →
      (updateClinicalDetails db noFail now id sd sm sy actorId).1.cases =
        db.cases.map (fun c =>
          if c.id == id then applyClinical c sd sm sy actorId now else c)) ∧
    (∀ (c : CaseRow) (sd sm sy : Option Int) (actorId : String) (now : Nat),
      let u := applyClinical c sd sm sy actorId now
      u.id = c.id ∧ u.state = c.state ∧ u.title = c.title ∧
      u.description = c.description ∧ u.created_by = c.created_by ∧
      u.created_at = c.created_at ∧ u.assigned_to = c.assigned_to ∧
      u.person_name = c.person_name ∧ u.nhs_number = c.nhs_number ∧
      u.dob_day = c.dob_day ∧ u.dob_month = c.dob_month ∧ u.dob_year = c.dob_year ∧
      u.postcode = c.postcode ∧ u.organisation = c.organisation ∧ u.version = c.version ∧
      u.updated_by = actorId ∧ u.updated_at = now) ∧
    (∀ (db : DB) (now : Nat) (id pc org actorId : String) (row : CaseRow),
      db.cases.find? (fun c => c.id == id) = some row →
      (updateLocationDetails db noFail now id pc org actorId).1.cases =
        db.cases.map (fun c =>
          if c.id == id then applyLocation c pc org actorId now else c)) ∧
    (∀ (c : CaseRow) (pc org actorId : String) (now : Nat),
      let u := applyLocation c pc org actorId now
      u.id = c.id ∧ u.state = c.state ∧ u.title = c.title ∧
      u.description = c.description ∧ u.created_by = c.created_by ∧
      u.created_at = c.created_at ∧ u.assigned_to = c.assigned_to ∧
      u.person_name = c.person_name ∧ u.nhs_number = c.nhs_number ∧
      u.dob_day = c.dob_day ∧ u.dob_month = c.dob_month ∧ u.dob_year = c.dob_year ∧
      u.symptoms_day = c.symptoms_day ∧ u.symptoms_month = c.symptoms_month ∧
      u.symptoms_year = c.symptoms_year ∧ u.version = c.version ∧
      u.updated_by = actorId ∧ u.updated_at = now) := by
  refine ⟨?_, ?_, ?_, ?_, ?_, ?_, ?_, ?_⟩
  · intro db now id title description actorId row hfind
    simp [updateCaseDetails, noFail, hfind, insertEvent]
  · intro c title description actorId now
    simp [applyDetails]
  · intro db now id pn nhs dd dm dy actorId row hfind
    simp [updatePersonDetails, noFail, hfind, insertEvent]
  · intro c pn nhs dd dm dy actorId now
    simp [applyPerson]
  · intro db now id sd sm sy actorId row hfind
    simp [updateClinicalDetails, noFail, hfind, insertEvent]
  · intro c sd sm sy actorId now
    simp [applyClinical]
  · intro db now id pc org actorId row hfind
    simp [updateLocationDetails, noFail, hfind, insertEvent]
  · intro c pc org actorId now
    simp [applyLocation]

/-- C8 witness: a concrete person-details update on `db0` keeps every
column outside the person group (plus bookkeeping) unchanged. -/
theorem c8_witness :
    (updatePersonDetails db0 noFail 3 "c1" "Jane Doe" "123 456 7890"
        (some 1) (some 1) (some 1990) "local-user").1.cases =
      [applyPerson row0 "Jane Doe" "123 456 7890" (some 1) (some 1) (some 1990)
        "local-user" 3] ∧
    (applyPerson row0 "Jane Doe" "123 456 7890" (some 1) (some 1) (some 1990)
        "local-user" 3).state = row0.state := by
  constructor
  · have h := c8_updates_frame.2.2.1 db0 3 "c1" "Jane Doe" "123 456 7890"
      (some 1) (some 1) (some 1990) "local-user" row0 (by rfl)
    rw [h]
    rfl
  · exact (c8_updates_frame.2.2.2.1 row0 "Jane Doe" "123 456 7890"
      (some 1) (some 1) (some 1990) "local-user" 3).2.1

/-! ## C7 — not-found is a sentinel, never an exception -/

/-- C7: for an id with no matching case row, each field-group update and
`transitionCase` rolls the transaction back and returns the `null`
not-found sentinel as an ordinary value (`.ok none`, not an error), with
the store — case rows and event table — completely unchanged. -/
theorem c7_not_found_sentinel :
    (∀ (db : DB) (failAt : FailSchedule) (now : Nat) (id title description actorId : String),
      failAt 0 = none →
      db.cases.find? (fun c => c.id == id) = none →
      updateCaseDetails db failAt now id title description actorId = (db, .ok none)) ∧
    (∀ (db : DB) (failAt : FailSchedule) (now : Nat) (id pn nhs : String)
        (dd dm dy : Option Int) (actorId : String),
      failAt 0 = none →
      db.cases.find? (fun c => c.id == id) = none →
      updatePersonDetails db failAt now id pn nhs dd dm dy actorId = (db, .ok none)) ∧
    (∀ (db : DB) (failAt : FailSchedule) (now : Nat) (id : String)
        (sd sm sy : Option Int) (actorId : String),
      failAt 0 = none →
      db.cases.find? (fun c => c.id == id) = none →
      updateClinicalDetails db failAt now id sd sm sy actorId = (db, .ok none)) ∧
    (∀ (db : DB) (failAt : FailSchedule) (now : Nat) (id pc org actorId : String),
      failAt 0 = none →
      db.cases.find? (fun c => c.id == id) = none →
      updateLocationDetails db failAt now id pc org actorId = (db, .ok none)) ∧
    (∀ (db : DB) (failAt : FailSchedule) (now : Nat) (id eventType : String)
        (comment : Option String) (actorId : String),
      failAt 0 = none →
      db.cases.find? (fun c => c.id == id) = none →
      transitionCase db failAt now id eventType comment actorId = (db, .ok none)) := by
  refine ⟨?_, ?_, ?_, ?_, ?_⟩
  · intro db failAt now id title description actorId h0 hfind
    simp [updateCaseDetails, h0, hfind]
  · intro db failAt now id pn nhs dd dm dy actorId h0 hfind
    simp [updatePersonDetails, h0, hfind]
  · intro db failAt now id sd sm sy actorId h0 hfind
    simp [updateClinicalDetails, h0, hfind]
  · intro db failAt now id pc org actorId h0 hfind
    simp [updateLocationDetails, h0, hfind]
  · intro db failAt now id eventType comment actorId h0 hfind
    simp [transitionCase, h0, hfind]

/-- C7 witness: a transition on the empty store returns the sentinel and
leaves the store untouched. -/
theorem c7_witness :
    transitionCase dbEmpty noFail 1 "missing" "SUBMIT_FOR_REVIEW" none "local-user" =
      (dbEmpty, .ok none) :=
  c7_not_found_sentinel.2.2.2.2 dbEmpty noFail 1 "missing" "SUBMIT_FOR_REVIEW"
    none "local-user" rfl rfl

/-! ## C6 — submitting a draft case for review -/

/-- C6: `transitionCase` with `"SUBMIT_FOR_REVIEW"` on an existing
`DRAFT` case sets the case state to `IN_REVIEW` and writes exactly one
event with `from_state = DRAFT` and `to_state = IN_REVIEW`. -/
theorem c6_submit_for_review :
    ∀ (db : DB) (now : Nat) (id : String) (comment : Option String)
      (actorId : String) (row : CaseRow),
      db.cases.find? (fun c => c.id == id) = some row →
      row.state = "DRAFT" →
      transitionCase db noFail now id "SUBMIT_FOR_REVIEW" comment actorId =
        ({ cases := db.cases.map (fun r =>
              if r.id == id then
                { r with state := "IN_REVIEW", updated_by := actorId, updated_at := now }
              else r),
           events := db.events ++ [{
             id := nextEventId db.events, case_id := id,
             event_type := "SUBMIT_FOR_REVIEW",
             from_state := some "DRAFT", to_state := some "IN_REVIEW",
             actor_id := actorId, comment := comment, occurred_at := now,
             event_data := none }] },
         .ok (some { id := row.id, state := "IN_REVIEW", title := row.title,
                     created_at := row.created_at, updated_at := now })) := by
  intro db now id comment actorId row hfind hstate
  simp [transitionCase, noFail, hfind, resolveToState, hstate, CaseRow.summary]

/-- C6 witness: submitting the concrete draft case `row0`. -/
theorem c6_witness :
    (transitionCase db0 noFail 4 "c1" "SUBMIT_FOR_REVIEW" none "local-user").2 =
      .ok (some { id := "c1", state := "IN_REVIEW", title := "Flu cluster",
                  created_at := 1, updated_at := 4 }) := by
  have h := c6_submit_for_review db0 4 "c1" none "local-user" row0 (by rfl) rfl
  rw [h]
  rfl

/-! ## C4 — unrecognised transition tags are a silent state no-op -/

/-- C4: for an existing case and any event type outside
`{"SUBMIT_FOR_REVIEW", "RETURN", "APPROVE"}`, `transitionCase` falls back
to "no change": it keeps `to_state` equal to the current state, still
rewrites `updated_by`/`updated_at`, writes one event with
`from_state = to_state`, and returns normally rather than signalling a
caller error. -/
theorem c4_unrecognised_tag_noop :
    ∀ (db : DB) (now : Nat) (id eventType : String) (comment : Option String)
      (actorId : String) (row : CaseRow),
      db.cases.find? (fun c => c.id == id) = some row →
      eventType ≠ "SUBMIT_FOR_REVIEW" → eventType ≠ "RETURN" → eventType ≠ "APPROVE" →
      transitionCase db noFail now id eventType comment actorId =
        ({ cases := db.cases.map (fun r =>
              if r.id == id then
                { r with state := row.state, updated_by := actorId, updated_at := now }
              else r),
           events := db.events ++ [{
             id := nextEventId db.events, case_id := id, event_type := eventType,
             from_state := some row.state, to_state := some row.state,
             actor_id := actorId, comment := comment, occurred_at := now,
             event_data := none }] },
         .ok (some { id := row.id, state := row.state, title := row.title,
                     created_at := row.created_at, updated_at := now })) := by
  intro db now id eventType comment actorId row hfind h1 h2 h3
  simp [transitionCase, noFail, hfind, resolveToState_other eventType row.state h1 h2 h3,
    CaseRow.summary]

/-- C4 witness: the server's `"REVIEW_APPROVE"` tag on the concrete
draft case is a silent state no-op that still returns normally. -/
theorem c4_witness :
    (transitionCase db0 noFail 5 "c1" "REVIEW_APPROVE" none "local-user").2 =
      .ok (some { id := "c1", state := "DRAFT", title := "Flu cluster",
                  created_at := 1, updated_at := 5 }) := by
  have h := c4_unrecognised_tag_noop db0 5 "c1" "REVIEW_APPROVE" none "local-user" row0
    (by rfl) (by decide) (by decide) (by decide)
  rw [h]
  rfl

/-! ## C2 — store failures roll back and re-raise -/

/-- C2: whenever the store raises an error inside an engine operation's
transaction, the operation re-raises exactly an error the store raised
(unmodified, no retry) and the visible store — case rows and event
table — is left in its pre-transaction state; in particular a failure of
the event insert after the case-row update rolls the case row back. -/
theorem c2_store_failure_rollback :
    (∀ (db : DB) (failAt : FailSchedule) (now : Nat) (id title description actorId : String)
        (e : StoreError),
      (updateCaseDetails db failAt now id title description actorId).2 = .error e →
      (updateCaseDetails db failAt now id title description actorId).1 = db ∧
      ∃ k, failAt k = some e) ∧
    (∀ (db : DB) (failAt : FailSchedule) (now : Nat) (id pn nhs : String)
        (dd dm dy : Option Int) (actorId : String) (e : StoreError),
      (updatePersonDetails db failAt now id pn nhs dd dm dy actorId).2 = .error e →
      (updatePersonDetails db failAt now id pn nhs dd dm dy actorId).1 = db ∧
      ∃ k, failAt k = some e) ∧
    (∀ (db : DB) (failAt : FailSchedule) (now : Nat) (id : String)
        (sd sm sy : Option Int) (actorId : String) (e : StoreError),
      (updateClinicalDetails db failAt now id sd sm sy actorId).2 = .error e →
      (updateClinicalDetails db failAt now id sd sm sy actorId).1 = db ∧
      ∃ k, failAt k = some e) ∧
    (∀ (db : DB) (failAt : FailSchedule) (now : Nat) (id pc org actorId : String)
        (e : StoreError),
      (updateLocationDetails db failAt now id pc org actorId).2 = .error e →
      (updateLocationDetails db failAt now id pc org actorId).1 = db ∧
      ∃ k, failAt k = some e) ∧
    (∀ (db : DB) (failAt : FailSchedule) (now : Nat) (id eventType : String)
        (comment : Option String) (actorId : String) (e : StoreError),
      (transitionCase db failAt now id eventType comment actorId).2 = .error e →
      (transitionCase db failAt now id eventType comment actorId).1 = db ∧
      ∃ k, failAt k = some e) ∧
    (∀ (db : DB) (failAt : FailSchedule) (now : Nat) (newId title description createdBy : String)
        (e : StoreError),
      (createCase db failAt now newId title description createdBy).2 = .error e →
      (createCase db failAt now newId title description createdBy).1 = db ∧
      ∃ k, failAt k = some e) ∧
    (∀ (db : DB) (now : Nat) (id title description actorId : String) (row : CaseRow)
        (e : StoreError),
      db.cases.find? (fun c => c.id == id) = some row →
      updateCaseDetails db (failOnly 2 e) now id title description actorId = (db, .error e)) ∧
    (∀ (db : DB) (now : Nat) (id pn nhs : String) (dd dm dy : Option Int)
        (actorId : String) (row : CaseRow) (e : StoreError),
      db.cases.find? (fun c => c.id == id) = some row →
      updatePersonDetails db (failOnly 2 e) now id pn nhs dd dm dy actorId = (db, .error e)) ∧
    (∀ (db : DB) (now : Nat) (id : String) (sd sm sy : Option Int)
        (actorId : String) (row : CaseRow) (e : StoreError),
      db.cases.find? (fun c => c.id == id) = some row →
      updateClinicalDetails db (failOnly 2 e) now id sd sm sy actorId = (db, .error e)) ∧
    (∀ (db : DB) (now : Nat) (id pc org actorId : String) (row : CaseRow) (e : StoreError),
      db.cases.find? (fun c => c.id == id) = some row →
      updateLocationDetails db (failOnly 2 e) now id pc org actorId = (db, .error e)) ∧
    (∀ (db : DB) (now : Nat) (id eventType : String) (comment : Option String)
        (actorId : String) (row : CaseRow) (e : StoreError),
      db.cases.find? (fun c => c.id == id) = some row →
      transitionCase db (failOnly 2 e) now id eventType comment actorId = (db, .error e)) ∧
    (∀ (db : DB) (now : Nat) (newId title description createdBy : String) (e : StoreError),
      createCase db (failOnly 1 e) now newId title description createdBy = (db, .error e)) := by
  refine ⟨?_, ?_, ?_, ?_, ?_, ?_, ?_, ?_, ?_, ?_, ?_, ?_⟩
  · intro db failAt now id title description actorId e h
    unfold updateCaseDetails at h ⊢
    rcases h0 : failAt 0 with _ | e0
    case some =>
      simp [h0] at h ⊢
      subst h
      exact ⟨0, h0⟩
    case none =>
    rcases hf : db.cases.find? (fun c => c.id == id) with _ | row
    case none => simp [h0, hf] at h
    case some =>
    rcases h1 : failAt 1 with _ | e1
    case some =>
      simp [h0, hf, h1] at h ⊢
      subst h
      exact ⟨1, h1⟩
    case none =>
    rcases h2 : failAt 2 with _ | e2
    case some =>
      simp [h0, hf, h1, h2] at h ⊢
      subst h
      exact ⟨2, h2⟩
    case none =>
    rcases h3 : failAt 3 with _ | e3
    case some =>
      simp [h0, hf, h1, h2, h3] at h ⊢
      subst h
      exact ⟨3, h3⟩
    case none => simp [h0, hf, h1, h2, h3, insertEvent] at h
  · intro db failAt now id pn nhs dd dm dy actorId e h
    unfold updatePersonDetails at h ⊢
    rcases h0 : failAt 0 with _ | e0
    case some =>
      simp [h0] at h ⊢
      subst h
      exact ⟨0, h0⟩
    case none =>
    rcases hf : db.cases.find? (fun c => c.id == id) with _ | row
    case none => simp [h0, hf] at h
    case some =>
    rcases h1 : failAt 1 with _ | e1
    case some =>
      simp [h0, hf, h1] at h ⊢
      subst h
      exact ⟨1, h1⟩
    case none =>
    rcases h2 : failAt 2 with _ | e2
    case some =>
      simp [h0, hf, h1, h2] at h ⊢
      subst h
      exact ⟨2, h2⟩
    case none =>
    rcases h3 : failAt 3 with _ | e3
    case some =>
      simp [h0, hf, h1, h2, h3] at h ⊢
      subst h
      exact ⟨3, h3⟩
    case none => simp [h0, hf, h1, h2, h3, insertEvent] at h
  · intro db failAt now id sd sm sy actorId e h
    unfold updateClinicalDetails at h ⊢
    rcases h0 : failAt 0 with _ | e0
    case some =>
      simp [h0] at h ⊢
      subst h
      exact ⟨0, h0⟩
    case none =>
    rcases hf : db.cases.find? (fun c => c.id == id) with _ | row
    case none => simp [h0, hf] at h
    case some =>
    rcases h1 : failAt 1 with _ | e1
    case some =>
      simp [h0, hf, h1] at h ⊢
      subst h
      exact ⟨1, h1⟩
    case none =>
    rcases h2 : failAt 2 with _ | e2
    case some =>
      simp [h0, hf, h1, h2] at h ⊢
      subst h
      exact ⟨2, h2⟩
    case none =>
    rcases h3 : failAt 3 with _ | e3
    case some =>
      simp [h0, hf, h1, h2, h3] at h ⊢
      subst h
      exact ⟨3, h3⟩
    case none => simp [h0, hf, h1, h2, h3, insertEvent] at h
  · intro db failAt now id pc org actorId e h
    unfold updateLocationDetails at h ⊢
    rcases h0 : failAt 0 with _ | e0
    case some =>
      simp [h0] at h ⊢
      subst h
      exact ⟨0, h0⟩
    case none =>
    rcases hf : db.cases.find? (fun c => c.id == id) with _ | row
    case none => simp [h0, hf] at h
    case some =>
    rcases h1 : failAt 1 with _ | e1
    case some =>
      simp [h0, hf, h1] at h ⊢
      subst h
      exact ⟨1, h1⟩
    case none =>
    rcases h2 : failAt 2 with _ | e2
    case some =>
      simp [h0, hf, h1, h2] at h ⊢
      subst h
      exact ⟨2, h2⟩
    case none =>
    rcases h3 : failAt 3 with _ | e3
    case some =>
      simp [h0, hf, h1, h2, h3] at h ⊢
      subst h
      exact ⟨3, h3⟩
    case none => simp [h0, hf, h1, h2, h3, insertEvent] at h
  · intro db failAt now id eventType comment actorId e h
    unfold transitionCase at h ⊢
    rcases h0 : failAt 0 with _ | e0
    case some =>
      simp [h0] at h ⊢
      subst h
      exact ⟨0, h0⟩
    case none =>
    rcases hf : db.cases.find? (fun c => c.id == id) with _ | row
    case none => simp [h0, hf] at h
    case some =>
    rcases h1 : failAt 1 with _ | e1
    case some =>
      simp [h0, hf, h1] at h ⊢
      subst h
      exact ⟨1, h1⟩
    case none =>
    rcases h2 : failAt 2 with _ | e2
    case some =>
      simp [h0, hf, h1, h2] at h ⊢
      subst h
      exact ⟨2, h2⟩
    case none =>
    rcases h3 : failAt 3 with _ | e3
    case some =>
      simp [h0, hf, h1, h2, h3] at h ⊢
      subst h
      exact ⟨3, h3⟩
    case none => simp [h0, hf, h1, h2, h3] at h
  · intro db failAt now newId title description createdBy e h
    unfold createCase at h ⊢
    rcases h0 : failAt 0 with _ | e0
    case some =>
      simp [h0] at h ⊢
      subst h
      exact ⟨0, h0⟩
    case none =>
    rcases h1 : failAt 1 with _ | e1
    case some =>
      simp [h0, h1] at h ⊢
      subst h
      exact ⟨1, h1⟩
    case none =>
    rcases h2 : failAt 2 with _ | e2
    case some =>
      simp [h0, h1, h2] at h ⊢
      subst h
      exact ⟨2, h2⟩
    case none => simp [h0, h1, h2] at h
  · intro db now id title description actorId row e hfind
    simp [updateCaseDetails, failOnly, hfind]
  · intro db now id pn nhs dd dm dy actorId row e hfind
    simp [updatePersonDetails, failOnly, hfind]
  · intro db now id sd sm sy actorId row e hfind
    simp [updateClinicalDetails, failOnly, hfind]
  · intro db now id pc org actorId row e hfind
    simp [updateLocationDetails, failOnly, hfind]
  · intro db now id eventType comment actorId row e hfind
    simp [transitionCase, failOnly, hfind]
  · intro db now newId title description createdBy e
    simp [createCase, failOnly]

/-- C2 witness: a concrete event-insert failure after the case-row
update leaves the store exactly as it was and re-raises the store's
error. -/
theorem c2_witness :
    updateCaseDetails db0 (failOnly 2 { msg := "constraint violation" }) 3
        "c1" "New title" "" "local-user" =
      (db0, .error { msg := "constraint violation" }) :=
  c2_store_failure_rollback.2.2.2.2.2.2.1 db0 3 "c1" "New title" "" "local-user" row0
    { msg := "constraint violation" } (by rfl)

/-! ## C3 — the engine does not enforce the legal-transition set -/

/-- C3 exhibit: the engine computes `to_state` from the event type alone,
so on a freshly created `DRAFT` case the event type `"APPROVE"` performs
`DRAFT → APPROVED` — a transition outside the spec's legal set — and a
further `"SUBMIT_FOR_REVIEW"` performs `APPROVED → IN_REVIEW`, so
`APPROVED` is not terminal either. -/
theorem c3_illegal_transition_exhibit :
    (((createCase dbEmpty noFail 1 "c1" "Flu cluster" "" "local-user").1.cases.find?
        (fun c => c.id == "c1")).map (fun c => c.state) = some "DRAFT") ∧
    (((transitionCase (createCase dbEmpty noFail 1 "c1" "Flu cluster" "" "local-user").1
          noFail 2 "c1" "APPROVE" none "local-user").1.cases.find?
        (fun c => c.id == "c1")).map (fun c => c.state) = some "APPROVED") ∧
    specLegalTransition "DRAFT" "APPROVED" = false ∧
    (((transitionCase (transitionCase (createCase dbEmpty noFail 1 "c1" "Flu cluster" ""
            "local-user").1 noFail 2 "c1" "APPROVE" none "local-user").1
          noFail 3 "c1" "SUBMIT_FOR_REVIEW" none "local-user").1.cases.find?
        (fun c => c.id == "c1")).map (fun c => c.state) = some "IN_REVIEW") ∧
    specLegalTransition "APPROVED" "IN_REVIEW" = false := by
  decide

/-! ## Helper lemmas for the route-level state invariant -/

/-- No case in the store is `APPROVED` or `RETURNED`. -/
def noForbiddenStates (db : DB) : Prop :=
  ∀ c ∈ db.cases, c.state ≠ "APPROVED" ∧ c.state ≠ "RETURNED"

/-- Every case row after `updateCaseDetails` has the state of some row of
the previous store. -/
theorem mem_cases_updateCaseDetails (db : DB) (failAt : FailSchedule) (now : Nat)
    (id title description actorId : String) (c' : CaseRow)
    (h : c' ∈ (updateCaseDetails db failAt now id title description actorId).1.cases) :
    ∃ c ∈ db.cases, c'.state = c.state := by
  unfold updateCaseDetails at h
  rcases h0 : failAt 0 with _ | e0 <;> simp only [h0] at h
  case some => exact ⟨c', h, rfl⟩
  rcases hf : db.cases.find? (fun c => c.id == id) with _ | row <;> simp only [hf] at h
  case none => exact ⟨c', h, rfl⟩
  rcases h1 : failAt 1 with _ | e1 <;> simp only [h1] at h
  case some => exact ⟨c', h, rfl⟩
  rcases h2 : failAt 2 with _ | e2 <;> simp only [h2] at h
  case some => exact ⟨c', h, rfl⟩
  rcases h3 : failAt 3 with _ | e3 <;> simp only [h3] at h
  case some => exact ⟨c', h, rfl⟩
  simp at h
  rcases h with ⟨c, hc, rfl⟩
  by_cases hid : c.id = id <;> simp [hid, applyDetails] at * <;> exact ⟨c, hc, rfl⟩

/-- Every case row after `updatePersonDetails` has the state of some row
of the previous store. -/
theorem mem_cases_updatePersonDetails (db : DB) (failAt : FailSchedule) (now : Nat)
    (id pn nhs : String) (dd dm dy : Option Int) (actorId : String) (c' : CaseRow)
    (h : c' ∈ (updatePersonDetails db failAt now id pn nhs dd dm dy actorId).1.cases) :
    ∃ c ∈ db.cases, c'.state = c.state := by
  unfold updatePersonDetails at h
  rcases h0 : failAt 0 with _ | e0 <;> simp only [h0] at h
  case some => exact ⟨c', h, rfl⟩
  rcases hf : db.cases.find? (fun c => c.id == id) with _ | row <;> simp only [hf] at h
  case none => exact ⟨c', h, rfl⟩
  rcases h1 : failAt 1 with _ | e1 <;> simp only [h1] at h
  case some => exact ⟨c', h, rfl⟩
  rcases h2 : failAt 2 with _ | e2 <;> simp only [h2] at h
  case some => exact ⟨c', h, rfl⟩
  rcases h3 : failAt 3 with _ | e3 <;> simp only [h3] at h
  case some => exact ⟨c', h, rfl⟩
  simp at h
  rcases h with ⟨c, hc, rfl⟩
  by_cases hid : c.id = id <;> simp [hid, applyPerson] at * <;> exact ⟨c, hc, rfl⟩

/-- Every case row after `updateClinicalDetails` has the state of some
row of the previous store. -/
theorem mem_cases_updateClinicalDetails (db : DB) (failAt : FailSchedule) (now : Nat)
    (id : String) (sd sm sy : Option Int) (actorId : String) (c' : CaseRow)
    (h : c' ∈ (updateClinicalDetails db failAt now id sd sm sy actorId).1.cases) :
    ∃ c ∈ db.cases, c'.state = c.state := by
  unfold updateClinicalDetails at h
  rcases h0 : failAt 0 with _ | e0 <;> simp only [h0] at h
  case some => exact ⟨c', h, rfl⟩
  rcases hf : db.cases.find? (fun c => c.id == id) with _ | row <;> simp only [hf] at h
  case none => exact ⟨c', h, rfl⟩
  rcases h1 : failAt 1 with _ | e1 <;> simp only [h1] at h
  case some => exact ⟨c', h, rfl⟩
  rcases h2 : failAt 2 with _ | e2 <;> simp only [h2] at h
  case some => exact ⟨c', h, rfl⟩
  rcases h3 : failAt 3 with _ | e3 <;> simp only [h3] at h
  case some => exact ⟨c', h, rfl⟩
  simp at h
  rcases h with ⟨c, hc, rfl⟩
  by_cases hid : c.id = id <;> simp [hid, applyClinical] at * <;> exact ⟨c, hc, rfl⟩

/-- Every case row after `updateLocationDetails` has the state of some
row of the previous store. -/
theorem mem_cases_updateLocationDetails (db : DB) (failAt : FailSchedule) (now : Nat)
    (id pc org actorId : String) (c' : CaseRow)
    (h : c' ∈ (updateLocationDetails db failAt now id pc org actorId).1.cases) :
    ∃ c ∈ db.cases, c'.state = c.state := by
  unfold updateLocationDetails at h
  rcases h0 : failAt 0 with _ | e0 <;> simp only [h0] at h
  case some => exact ⟨c', h, rfl⟩
  rcases hf : db.cases.find? (fun c => c.id == id) with _ | row <;> simp only [hf] at h
  case none => exact ⟨c', h, rfl⟩
  rcases h1 : failAt 1 with _ | e1 <;> simp only [h1] at h
  case some => exact ⟨c', h, rfl⟩
  rcases h2 : failAt 2 with _ | e2 <;> simp only [h2] at h
  case some => exact ⟨c', h, rfl⟩
  rcases h3 : failAt 3 with _ | e3 <;> simp only [h3] at h
  case some => exact ⟨c', h, rfl⟩
  simp at h
  rcases h with ⟨c, hc, rfl⟩
  by_cases hid : c.id = id <;> simp [hid, applyLocation] at * <;> exact ⟨c, hc, rfl⟩

/-- Every case row after `transitionCase` either keeps a state already in
the store or carries the state resolved for the found row. -/
theorem mem_cases_transitionCase (db : DB) (failAt : FailSchedule) (now : Nat)
    (id eventType : String) (comment : Option String) (actorId : String) (c' : CaseRow)
    (h : c' ∈ (transitionCase db failAt now id eventType comment actorId).1.cases) :
    (∃ c ∈ db.cases, c'.state = c.state) ∨
    (∃ row ∈ db.cases, db.cases.find? (fun c => c.id == id) = some row ∧
      c'.state = resolveToState eventType row.state) := by
  unfold transitionCase at h
  rcases h0 : failAt 0 with _ | e0 <;> simp only [h0] at h
  case some => exact .inl ⟨c', h, rfl⟩
  rcases hf : db.cases.find? (fun c => c.id == id) with _ | row <;> simp only [hf] at h
  case none => exact .inl ⟨c', h, rfl⟩
  rcases h1 : failAt 1 with _ | e1 <;> simp only [h1] at h
  case some => exact .inl ⟨c', h, rfl⟩
  rcases h2 : failAt 2 with _ | e2 <;> simp only [h2] at h
  case some => exact .inl ⟨c', h, rfl⟩
  rcases h3 : failAt 3 with _ | e3 <;> simp only [h3] at h
  case some => exact .inl ⟨c', h, rfl⟩
  simp at h
  rcases h with ⟨c, hc, rfl⟩
  by_cases hid : c.id = id
  · exact .inr ⟨row, List.mem_of_find?_eq_some hf, hf, by simp [hid]⟩
  · exact .inl ⟨c, hc, by simp [hid]⟩

/-- Every case row after `createCase` is either a previous row or the new
`DRAFT` row. -/
theorem mem_cases_createCase (db : DB) (failAt : FailSchedule) (now : Nat)
    (newId title description createdBy : String) (c' : CaseRow)
    (h : c' ∈ (createCase db failAt now newId title description createdBy).1.cases) :
    c' ∈ db.cases ∨ c'.state = "DRAFT" := by
  unfold createCase at h
  rcases h0 : failAt 0 with _ | e0 <;> simp only [h0] at h
  case some => exact .inl h
  rcases h1 : failAt 1 with _ | e1 <;> simp only [h1] at h
  case some => exact .inl h
  rcases h2 : failAt 2 with _ | e2 <;> simp only [h2] at h
  case some => exact .inl h
  simp at h
  rcases h with h | rfl
  · exact .inl h
  · exact .inr rfl

/-- The store a route leaves behind is either untouched or the store the
engine operation it calls leaves behind: `POST /cases/new`. -/
theorem routeNewCase_db (db : DB) (failAt : FailSchedule) (now : Nat)
    (newId : String) (title description : Option String) :
    (routeNewCase db failAt now newId title description).1 = db ∨
    (routeNewCase db failAt now newId title description).1 =
      (createCase db failAt now newId (bodyStr title) (bodyStr description) "local-user").1 := by
  simp only [routeNewCase]
  split
  · exact .inl rfl
  · right
    rcases hcc : createCase db failAt now newId (bodyStr title) (bodyStr description)
      "local-user" with ⟨db2, r⟩
    cases r <;> rfl

/-- The store a route leaves behind: `POST /cases/:id/person`. -/
theorem routePerson_db (db : DB) (failAt : FailSchedule) (now : Nat) (id : String)
    (pn nhs dd dm dy : Option String) :
    (routePerson db failAt now id pn nhs dd dm dy).1 = db ∨
    (routePerson db failAt now id pn nhs dd dm dy).1 =
      (updatePersonDetails db failAt now id (bodyStr pn) (bodyStr nhs)
        (bodyNum dd) (bodyNum dm) (bodyNum dy) "local-user").1 := by
  simp only [routePerson]
  split
  · exact .inl rfl
  · split
    · exact .inl rfl
    · right
      rcases hu : updatePersonDetails db failAt now id (bodyStr pn) (bodyStr nhs)
        (bodyNum dd) (bodyNum dm) (bodyNum dy) "local-user" with ⟨db2, r⟩
      rcases r with e | v
      · rfl
      · rcases v with _ | ⟨c, eid⟩ <;> rfl

/-- The store a route leaves behind: `POST /cases/:id/clinical`. -/
theorem routeClinical_db (db : DB) (failAt : FailSchedule) (now : Nat) (id : String)
    (sd sm sy : Option String) :
    (routeClinical db failAt now id sd sm sy).1 = db ∨
    (routeClinical db failAt now id sd sm sy).1 =
      (updateClinicalDetails db failAt now id (bodyNum sd) (bodyNum sm) (bodyNum sy)
        "local-user").1 := by
  simp only [routeClinical]
  split
  · exact .inl rfl
  · split
    · exact .inl rfl
    · right
      rcases hu : updateClinicalDetails db failAt now id (bodyNum sd) (bodyNum sm)
        (bodyNum sy) "local-user" with ⟨db2, r⟩
      rcases r with e | v
      · rfl
      · rcases v with _ | ⟨c, eid⟩ <;> rfl

/-- The store a route leaves behind: `POST /cases/:id/location`. -/
theorem routeLocation_db (db : DB) (failAt : FailSchedule) (now : Nat) (id : String)
    (pc org : Option String) :
    (routeLocation db failAt now id pc org).1 = db ∨
    (routeLocation db failAt now id pc org).1 =
      (updateLocationDetails db failAt now id (bodyStr pc) (bodyStr org) "local-user").1 := by
  simp only [routeLocation]
  split
  · exact .inl rfl
  · split
    · exact .inl rfl
    · right
      rcases hu : updateLocationDetails db failAt now id (bodyStr pc) (bodyStr org)
        "local-user" with ⟨db2, r⟩
      rcases r with e | v
      · rfl
      · rcases v with _ | ⟨c, eid⟩ <;> rfl

/-- The store a route leaves behind: `POST /cases/:id/submit`. -/
theorem routeSubmit_db (db : DB) (failAt : FailSchedule) (now : Nat) (id : String) :
    (routeSubmit db failAt now id).1 =
      (transitionCase db failAt now id "SUBMIT_FOR_REVIEW" none "local-user").1 := by
  simp only [routeSubmit]
  rcases ht : transitionCase db failAt now id "SUBMIT_FOR_REVIEW" none "local-user"
    with ⟨db2, r⟩
  rcases r with e | v
  · rfl
  · rcases v with _ | s <;> rfl

/-- The store a route leaves behind: `POST /cases/:id/approve`. -/
theorem routeApprove_db (db : DB) (failAt : FailSchedule) (now : Nat) (id : String) :
    (routeApprove db failAt now id).1 =
      (transitionCase db failAt now id "REVIEW_APPROVE" none "local-user").1 := by
  simp only [routeApprove]
  rcases ht : transitionCase db failAt now id "REVIEW_APPROVE" none "local-user"
    with ⟨db2, r⟩
  rcases r with e | v
  · rfl
  · rcases v with _ | s <;> rfl

/-- The store a route leaves behind: `POST /cases/:id/return`. -/
theorem routeReturnCase_db (db : DB) (failAt : FailSchedule) (now : Nat) (id : String)
    (comment : Option String) :
    (routeReturnCase db failAt now id comment).1 = db ∨
    (routeReturnCase db failAt now id comment).1 =
      (transitionCase db failAt now id "REVIEW_RETURN" (some (bodyStr comment))
        "local-user").1 := by
  simp only [routeReturnCase]
  split
  · exact .inl rfl
  · split
    · exact .inl rfl
    · right
      rcases ht : transitionCase db failAt now id "REVIEW_RETURN" (some (bodyStr comment))
        "local-user" with ⟨db2, r⟩
      rcases r with e | v
      · rfl
      · rcases v with _ | s <;> rfl

/-- One route invocation never makes any case `APPROVED` or
`RETURNED`. -/
theorem runRoute_no_forbidden (db : DB) (failAt : FailSchedule) (now : Nat)
    (a : RouteCall) (hinv : noForbiddenStates db) :
    noForbiddenStates (runRoute db failAt now a).1 := by
  cases a with
  | newCase newId title description =>
    intro c' hc'
    rcases routeNewCase_db db failAt now newId title description with hdb | hdb <;>
      rw [runRoute, hdb] at hc'
    · exact hinv c' hc'
    · rcases mem_cases_createCase db failAt now newId (bodyStr title)
        (bodyStr description) "local-user" c' hc' with h | h
      · exact hinv c' h
      · rw [h]
        exact ⟨by decide, by decide⟩
  | person id pn nhs dd dm dy =>
    intro c' hc'
    rcases routePerson_db db failAt now id pn nhs dd dm dy with hdb | hdb <;>
      rw [runRoute, hdb] at hc'
    · exact hinv c' hc'
    · rcases mem_cases_updatePersonDetails db failAt now id (bodyStr pn) (bodyStr nhs)
        (bodyNum dd) (bodyNum dm) (bodyNum dy) "local-user" c' hc' with ⟨c, hc, hst⟩
      rw [hst]
      exact hinv c hc
  | clinical id sd sm sy =>
    intro c' hc'
    rcases routeClinical_db db failAt now id sd sm sy with hdb | hdb <;>
      rw [runRoute, hdb] at hc'
    · exact hinv c' hc'
    · rcases mem_cases_updateClinicalDetails db failAt now id (bodyNum sd) (bodyNum sm)
        (bodyNum sy) "local-user" c' hc' with ⟨c, hc, hst⟩
      rw [hst]
      exact hinv c hc
  | location id pc org =>
    intro c' hc'
    rcases routeLocation_db db failAt now id pc org with hdb | hdb <;>
      rw [runRoute, hdb] at hc'
    · exact hinv c' hc'
    · rcases mem_cases_updateLocationDetails db failAt now id (bodyStr pc) (bodyStr org)
        "local-user" c' hc' with ⟨c, hc, hst⟩
      rw [hst]
      exact hinv c hc
  | submit id =>
    intro c' hc'
    rw [runRoute, routeSubmit_db db failAt now id] at hc'
    rcases mem_cases_transitionCase db failAt now id "SUBMIT_FOR_REVIEW" none
      "local-user" c' hc' with ⟨c, hc, hst⟩ | ⟨row, hrow, hf, hst⟩
    · rw [hst]
      exact hinv c hc
    · rw [hst]
      simp [resolveToState]
  | approve id =>
    intro c' hc'
    rw [runRoute, routeApprove_db db failAt now id] at hc'
    rcases mem_cases_transitionCase db failAt now id "REVIEW_APPROVE" none
      "local-user" c' hc' with ⟨c, hc, hst⟩ | ⟨row, hrow, hf, hst⟩
    · rw [hst]
      exact hinv c hc
    · rw [hst, resolveToState_other _ _ (by decide) (by decide) (by decide)]
      exact hinv row hrow
  | returnCase id comment =>
    intro c' hc'
    rcases routeReturnCase_db db failAt now id comment with hdb | hdb <;>
      rw [runRoute, hdb] at hc'
    · exact hinv c' hc'
    · rcases mem_cases_transitionCase db failAt now id "REVIEW_RETURN"
        (some (bodyStr comment)) "local-user" c' hc' with ⟨c, hc, hst⟩ | ⟨row, hrow, hf, hst⟩
      · rw [hst]
        exact hinv c hc
      · rw [hst, resolveToState_other _ _ (by decide) (by decide) (by decide)]
        exact hinv row hrow

/-! ## C5 — the approve/return routes use unrecognised tags, so no case
reaches `APPROVED` or `RETURNED` through the server -/

/-- C5: the server's approve and return routes call `transitionCase`
with event types `"REVIEW_APPROVE"` and `"REVIEW_RETURN"`, which the
engine's lookup does not recognise: on an existing case both record an
event with `to_state = from_state` and leave every case state unchanged;
consequently, over any sequence of route invocations, a store in which no
case is `APPROVED` or `RETURNED` never acquires one. -/
theorem c5_routes_never_approve :
    (∀ (db : DB) (now : Nat) (id : String) (row : CaseRow),
      db.cases.find? (fun c => c.id == id) = some row →
      routeApprove db noFail now id =
        ({ cases := db.cases.map (fun r =>
              if r.id == id then
                { r with state := row.state, updated_by := "local-user", updated_at := now }
              else r),
           events := db.events ++ [{
             id := nextEventId db.events, case_id := id, event_type := "REVIEW_APPROVE",
             from_state := some row.state, to_state := some row.state,
             actor_id := "local-user", comment := none, occurred_at := now,
             event_data := none }] },
         .redirect ("/cases/" ++ id ++ "/approved"))) ∧
    (∀ (db : DB) (now : Nat) (id : String) (comment : Option String) (row : CaseRow),
      db.cases.find? (fun c => c.id == id) = some row →
      bodyStr comment ≠ "" →
      routeReturnCase db noFail now id comment =
        ({ cases := db.cases.map (fun r =>
              if r.id == id then
                { r with state := row.state, updated_by := "local-user", updated_at := now }
              else r),
           events := db.events ++ [{
             id := nextEventId db.events, case_id := id, event_type := "REVIEW_RETURN",
             from_state := some row.state, to_state := some row.state,
             actor_id := "local-user", comment := some (bodyStr comment),
             occurred_at := now, event_data := none }] },
         .redirect ("/cases/" ++ id ++ "/returned"))) ∧
    (∀ (db : DB) (failAt : FailSchedule) (now : Nat) (a : RouteCall),
      noForbiddenStates db → noForbiddenStates (runRoute db failAt now a).1) ∧
    (∀ (calls : List (RouteCall × FailSchedule × Nat)) (db : DB),
      noForbiddenStates db → noForbiddenStates (runRoutes db calls)) := by
  refine ⟨?_, ?_, ?_, ?_⟩
  · intro db now id row hfind
    simp [routeApprove, transitionCase, noFail, hfind, resolveToState, CaseRow.summary]
  · intro db now id comment row hfind hc
    simp [routeReturnCase, getCaseById, hfind, hc, transitionCase, noFail,
      resolveToState, CaseRow.summary]
  · intro db failAt now a hinv
    exact runRoute_no_forbidden db failAt now a hinv
  · intro calls
    induction calls with
    | nil => intro db hinv; exact hinv
    | cons hd tl ih =>
      intro db hinv
      rcases hd with ⟨a, failAt, now⟩
      exact ih _ (runRoute_no_forbidden db failAt now a hinv)

/-- C5 witness: approving the concrete draft case through the server's
route leaves its state `DRAFT` while redirecting as if approved. -/
theorem c5_witness :
    ((routeApprove db0 noFail 6 "c1").1.cases.find? (fun c => c.id == "c1")).map
        (fun c => c.state) = some "DRAFT" ∧
    (routeApprove db0 noFail 6 "c1").2 = .redirect "/cases/c1/approved" := by
  have h := c5_routes_never_approve.1 db0 6 "c1" row0 (by rfl)
  rw [h]
  exact ⟨rfl, rfl⟩

end Frontend
